import Mathlib

/-!
Verification of the `examples/async.rs` program of the rusb repository.

The program locates a USB device by vendor/product id, walks its descriptor
tree for a first readable (inbound) endpoint of a requested transfer type,
configures the interface, and runs an endless submit/wait/resubmit loop over
a fixed pool of eight 64-byte buffers.

The embedding below follows the Rust source function by function.  Results of
calls into the rusb library (device enumeration, descriptor reads, handle
operations, transfer submission and completion) are universally quantified
inputs of the embedded functions, shaped after the spec's driver collaborator
contract, since the library itself is outside the example.
-/

namespace Async

/-- `rusb::Direction`. -/
inductive Direction
  | In
  | Out
deriving DecidableEq, Repr

/-- `rusb::TransferType`. -/
inductive TransferType
  | Control
  | Isochronous
  | Bulk
  | Interrupt
deriving DecidableEq, Repr

/-- One endpoint descriptor, with the attributes the example reads. -/
structure EndpointDesc where
  direction : Direction
  transfer_type : TransferType
  address : Nat
deriving DecidableEq, Repr

/-- One alternate-setting (interface) descriptor. -/
structure InterfaceDesc where
  interface_number : Nat
  setting_number : Nat
  endpoint_descriptors : List EndpointDesc
deriving DecidableEq, Repr

/-- One interface: the list of its alternate-setting descriptors. -/
structure Interface where
  descriptors : List InterfaceDesc
deriving DecidableEq, Repr

/-- One configuration descriptor. -/
structure ConfigDesc where
  number : Nat
  interfaces : List Interface
deriving DecidableEq, Repr

/-- The device-level descriptor fields the example reads. -/
structure DeviceDescriptor where
  vendor_id : Nat
  product_id : Nat
  num_configurations : Nat
deriving DecidableEq, Repr

/-- A device, as the endpoint search sees it: entry `n` of
`config_descriptors` is the result of `device.config_descriptor(n)`,
`none` standing for an `Err` result (a missing entry reads as `Err` too). -/
structure Device where
  config_descriptors : List (Option ConfigDesc)
deriving DecidableEq, Repr

/-- `device.config_descriptor(n)`. -/
def Device.config_descriptor (d : Device) (n : Nat) : Option ConfigDesc :=
  (d.config_descriptors.get? n).join

/-- The local `struct Endpoint` of the example. -/
structure Endpoint where
  config : Nat
  iface : Nat
  setting : Nat
  address : Nat
deriving DecidableEq, Repr

/-- Innermost loop of `find_readable_endpoint`: scan the endpoint
descriptors of one alternate setting inside configuration `cfgNum`. -/
def findInInterfaceDesc (cfgNum : Nat) (idesc : InterfaceDesc)
    (transfer_type : TransferType) : Option Endpoint :=
  idesc.endpoint_descriptors.findSome? fun ep =>
    if ep.direction = Direction.In ∧ ep.transfer_type = transfer_type then
      some { config := cfgNum, iface := idesc.interface_number,
             setting := idesc.setting_number, address := ep.address }
    else
      none

/-- Scan the alternate settings of one interface. -/
def findInInterface (cfgNum : Nat) (i : Interface)
    (transfer_type : TransferType) : Option Endpoint :=
  i.descriptors.findSome? fun idesc => findInInterfaceDesc cfgNum idesc transfer_type

/-- Scan the interfaces of one configuration. -/
def findInConfig (c : ConfigDesc) (transfer_type : TransferType) : Option Endpoint :=
  c.interfaces.findSome? fun i => findInInterface c.number i transfer_type

/-- `find_readable_endpoint`: iterate the configuration indices
`0 .. device_desc.num_configurations()`, skipping configurations whose
descriptor cannot be read, and return the first inbound endpoint of the
requested transfer type, in traversal order. -/
def find_readable_endpoint (device : Device) (device_desc : DeviceDescriptor)
    (transfer_type : TransferType) : Option Endpoint :=
  (List.range device_desc.num_configurations).findSome? fun n =>
    match device.config_descriptor n with
    | none => none
    | some c => findInConfig c transfer_type

/-- Spec-side: every (endpoint descriptor, produced record) pair of the
readable part of the tree, in configuration-index → interface →
alternate-setting → endpoint traversal order. -/
def endpointTuples (device : Device) (device_desc : DeviceDescriptor) :
    List (EndpointDesc × Endpoint) :=
  (List.range device_desc.num_configurations).flatMap fun n =>
    match device.config_descriptor n with
    | none => []
    | some c =>
      c.interfaces.flatMap fun i =>
        i.descriptors.flatMap fun idesc =>
          idesc.endpoint_descriptors.map fun ep =>
            (ep, { config := c.number, iface := idesc.interface_number,
                   setting := idesc.setting_number, address := ep.address })

/-- Spec-side selector, following the spec's words: the first tuple of the
traversal whose endpoint is inbound and of the requested type, or none. -/
def firstMatchSpec (device : Device) (device_desc : DeviceDescriptor)
    (transfer_type : TransferType) : Option Endpoint :=
  (((endpointTuples device device_desc).filter fun p =>
      decide (p.1.direction = Direction.In ∧ p.1.transfer_type = transfer_type)).head?).map
    Prod.snd

/-! ### Restriction of a tree to the endpoints of one request (claim C4) -/

/-- Keep only the endpoints an `In`/`transfer_type` search can match. -/
def keepOnly (transfer_type : TransferType) (eps : List EndpointDesc) : List EndpointDesc :=
  eps.filter fun ep =>
    decide (ep.direction = Direction.In ∧ ep.transfer_type = transfer_type)

/-- Restrict an alternate-setting descriptor to matchable endpoints. -/
def InterfaceDesc.restrict (transfer_type : TransferType) (idesc : InterfaceDesc) :
    InterfaceDesc :=
  { idesc with endpoint_descriptors := keepOnly transfer_type idesc.endpoint_descriptors }

/-- Restrict an interface to matchable endpoints. -/
def Interface.restrict (transfer_type : TransferType) (i : Interface) : Interface :=
  { descriptors := i.descriptors.map (InterfaceDesc.restrict transfer_type) }

/-- Restrict a configuration to matchable endpoints. -/
def ConfigDesc.restrict (transfer_type : TransferType) (c : ConfigDesc) : ConfigDesc :=
  { c with interfaces := c.interfaces.map (Interface.restrict transfer_type) }

/-- Restrict a device to matchable endpoints, keeping the traversal
structure (configuration slots, numbers, interfaces, settings) intact. -/
def Device.restrict (transfer_type : TransferType) (d : Device) : Device :=
  { config_descriptors := d.config_descriptors.map (Option.map (ConfigDesc.restrict transfer_type)) }

/-! ### Device scan (`open_device`, claim C3) -/

/-- A device as the scan of `open_device` sees it: the result of
`device.device_descriptor()` (`none` for `Err`) and whether `device.open()`
succeeds. -/
structure SimDevice where
  device_descriptor : Option DeviceDescriptor
  open_ok : Bool
deriving DecidableEq, Repr

/-- The `for device in devices.iter()` loop of `open_device`: skip a device
whose descriptor read fails, return the first whose descriptor matches
`(vid, pid)` and whose open succeeds, skip a matching device whose open
fails. -/
def open_scan (vid pid : Nat) : List SimDevice → Option (SimDevice × DeviceDescriptor)
  | [] => none
  | dev :: rest =>
    match dev.device_descriptor with
    | none => open_scan vid pid rest
    | some dd =>
      if dd.vendor_id = vid ∧ dd.product_id = pid then
        if dev.open_ok then some (dev, dd) else open_scan vid pid rest
      else
        open_scan vid pid rest

/-- `open_device`: `context.devices()` yielding `Err` (`none`) returns
`None` at once; otherwise scan the enumerated list. -/
def open_device (vid pid : Nat) (devices : Option (List SimDevice)) :
    Option (SimDevice × DeviceDescriptor) :=
  match devices with
  | none => none
  | some l => open_scan vid pid l

/-- Spec-side scan predicate: the device's descriptor reads, matches
`(vid, pid)`, and the device opens. -/
def matchesAndOpens (vid pid : Nat) (dev : SimDevice) : Bool :=
  match dev.device_descriptor with
  | none => false
  | some dd => decide (dd.vendor_id = vid ∧ dd.product_id = pid) && dev.open_ok

/-! ### `main` (claims C9 and C3) -/

/-- Decimal digit value of a character, as Rust's integer `FromStr`. -/
def decDigit (c : Char) : Option Nat :=
  if c.isDigit then some (c.toNat - 48) else none

/-- Accumulate a decimal value over the characters; any non-digit fails. -/
def decValueAux : List Char → Nat → Option Nat
  | [], acc => some acc
  | c :: cs, acc =>
    match decDigit c with
    | some d => decValueAux cs (10 * acc + d)
    | none => none

/-- `u16::from_str`: an optional leading `+`, then at least one decimal
digit, value below 2^16; anything else is a parse error. -/
def parse_u16 (s : String) : Option Nat :=
  let cs :=
    match s.toList with
    | '+' :: rest => rest
    | cs => cs
  match cs with
  | [] => none
  | _ :: _ =>
    match decValueAux cs 0 with
    | some v => if v < 65536 then some v else none
    | none => none

/-- Observable actions of `main`, in order of occurrence. -/
inductive MainEvent
  | printUsage
  | contextInit
  | printNotFound (vid pid : Nat)
  | enterReadDevice (vid pid : Nat)
deriving DecidableEq, Repr

/-- How `main` ends: a normal return, a panic, or descent into
`read_device` (which, on a found endpoint, never returns). -/
inductive MainOutcome
  | exitOk
  | panicked
  | inReadDevice
deriving DecidableEq, Repr

/-- The external results `main` may consume: whether `Context::new()`
succeeds and what `context.devices()` returns. -/
structure World where
  ctx_ok : Bool
  devices : Option (List SimDevice)

/-- `main`: `args` includes the program name at index 0, so fewer than two
positional arguments means `args.len() < 3`; then the two `unwrap`ped
parses, `Context::new()`, `open_device`, and the two outcomes of the
match on its result. -/
def mainRun (args : List String) (w : World) : List MainEvent × MainOutcome :=
  if args.length < 3 then
    ([MainEvent.printUsage], MainOutcome.exitOk)
  else
    match parse_u16 (args.getD 1 ""), parse_u16 (args.getD 2 "") with
    | some vid, some pid =>
      if w.ctx_ok then
        match open_device vid pid w.devices with
        | some _ =>
          ([MainEvent.contextInit, MainEvent.enterReadDevice vid pid],
            MainOutcome.inReadDevice)
        | none =>
          ([MainEvent.contextInit, MainEvent.printNotFound vid pid],
            MainOutcome.exitOk)
      else
        ([MainEvent.contextInit], MainOutcome.panicked)
    | _, _ => ([], MainOutcome.panicked)

/-! ### `read_device` (claim C5) -/

/-- How `read_device` proceeds: entering `read_endpoint` (whose loop has no
exit, so control never comes back), or falling through to `Ok(())`. -/
inductive ReadDeviceOutcome
  | entersLoop (transfer_type : TransferType) (e : Endpoint)
  | done
deriving DecidableEq, Repr

/-- `read_device`: search for an interrupt endpoint first; on a hit enter
`read_endpoint` (which never returns); otherwise print the notice, search
for a bulk endpoint, same shape; return `Ok(())` if both searches miss. -/
def read_device (device : Device) (device_desc : DeviceDescriptor) : ReadDeviceOutcome :=
  match find_readable_endpoint device device_desc TransferType.Interrupt with
  | some e => ReadDeviceOutcome.entersLoop TransferType.Interrupt e
  | none =>
    match find_readable_endpoint device device_desc TransferType.Bulk with
    | some e => ReadDeviceOutcome.entersLoop TransferType.Bulk e
    | none => ReadDeviceOutcome.done

/-! ### `configure_endpoint` (claims C7 and C10) -/

/-- The handle operations the example can invoke. -/
inductive HandleOp
  | setAutoDetachKernelDriver (enable : Bool)
  | claimInterface (iface : Nat)
  | setAlternateSetting (iface setting : Nat)
  | setActiveConfiguration (config : Nat)
deriving DecidableEq, Repr

/-- The external results of the three handle operations the code invokes. -/
structure HandleBehavior where
  auto_detach_ok : Bool
  claim_ok : Bool
  set_alt_ok : Bool
deriving DecidableEq, Repr

/-- Result of `configure_endpoint`: `Ok(())`, an `Err` surfaced to the
caller (from the two `?` operators), or a panic (from the `unwrap` on
`set_auto_detach_kernel_driver`). -/
inductive ConfigResult
  | ok
  | err
  | panicked
deriving DecidableEq, Repr

/-- `configure_endpoint`: the invoked handle operations in order, and the
result.  The `set_active_configuration` line is commented out in the
source, so it is never invoked. -/
def configure_endpoint (hb : HandleBehavior) (e : Endpoint) : List HandleOp × ConfigResult :=
  let ops1 := [HandleOp.setAutoDetachKernelDriver true]
  if ¬hb.auto_detach_ok then (ops1, ConfigResult.panicked)
  else
    let ops2 := ops1 ++ [HandleOp.claimInterface e.iface]
    if ¬hb.claim_ok then (ops2, ConfigResult.err)
    else
      let ops3 := ops2 ++ [HandleOp.setAlternateSetting e.iface e.setting]
      if ¬hb.set_alt_ok then (ops3, ConfigResult.err)
      else (ops3, ConfigResult.ok)

/-! ### The transfer loop of `read_endpoint` (claims C2, C6, C8, C10)

Modelled from the spec: the rusb `AsyncGroup` itself is library code outside
the example; per the spec's driver collaborator contract, `submit` adds a
transfer to the pending set (and can fail), `wait_any` blocks and hands back
one completed member of the pending set (and can fail), and a timed-out
transfer completes with a timeout status like any other completion.  The
pending set is the list of buffer slots currently in flight, in submission
order. -/

/-- Completion status of a transfer, a driver-reported value.  Modelled
from the spec: which statuses exist does not matter to the example, only
that timeout is one status value among others. -/
inductive TransferStatus
  | Success
  | Timeout
  | TransferError
  | Cancelled
  | Stall
  | NoDevice
  | Overflow
  | Unknown
deriving DecidableEq, Repr

/-- The initial burst of `read_endpoint`: submit the eight fixed buffers in
order; a failed submit is an `unwrap` panic (`none`). -/
def submitAll (ok : Fin 8 → Bool) : List (Fin 8) → List (Fin 8) → Option (List (Fin 8))
  | [], pending => some pending
  | i :: rest, pending =>
    if ok i then submitAll ok rest (pending ++ [i]) else none

/-- Submit all eight buffers, starting from an empty pending set. -/
def submitBurst (ok : Fin 8 → Bool) : Option (List (Fin 8)) :=
  submitAll ok (List.finRange 8) []

/-- One driver response to an iteration of the loop: `wait_any` fails, or
the `k`-th pending transfer completes with a status and an actual byte
count and the following resubmission succeeds or fails. -/
inductive LoopEvent
  | waitErr
  | complete (k : Nat) (status : TransferStatus) (actual : Nat) (submit_ok : Bool)
deriving DecidableEq, Repr

/-- One iteration of `loop { wait_any; print; submit }`: take the completed
transfer out of the pending set, print its status and actual count, and
resubmit the same transfer at the back.  `none` is a panic (a failed wait,
a failed resubmit, or an impossible completion index). -/
def loopIter (s : List (Fin 8)) : LoopEvent → Option (TransferStatus × Nat × List (Fin 8))
  | LoopEvent.waitErr => none
  | LoopEvent.complete k status actual submit_ok =>
    match s[k]? with
    | none => none
    | some slot =>
      if submit_ok then some (status, actual, s.eraseIdx k ++ [slot]) else none

/-- Run the loop over a sequence of driver responses; `none` records that a
panic has happened (and is final). -/
def runLoop : List (Fin 8) → List LoopEvent → Option (List (Fin 8))
  | s, [] => some s
  | s, ev :: evs =>
    match loopIter s ev with
    | none => none
    | some (_, _, s') => runLoop s' evs

/-- A driver response on which the loop body panics nowhere: a completion
of a pending slot whose resubmission succeeds. -/
def goodEvent : LoopEvent → Bool
  | LoopEvent.waitErr => false
  | LoopEvent.complete k _ _ submit_ok => decide (k < 8) && submit_ok

/-! ### Entry of `read_endpoint` (claim C10) -/

/-- Where `read_endpoint` stands after its straight-line prefix: panicked
unwrapping `configure_endpoint`, panicked on the `unimplemented!()` arm,
panicked on a burst submit, or inside the loop with eight pending
transfers. -/
inductive StartOutcome
  | configPanic
  | unimplementedPanic
  | submitPanic
  | looping (pending : List (Fin 8))
deriving DecidableEq, Repr

/-- The straight-line prefix of `read_endpoint`: configure the endpoint
(`unwrap`), then match on the transfer type — `Interrupt` and `Bulk` each
submit the eight buffers, every other type hits `unimplemented!()`. -/
def read_endpoint_start (hb : HandleBehavior) (e : Endpoint)
    (transfer_type : TransferType) (subOk : Fin 8 → Bool) :
    List HandleOp × StartOutcome :=
  match configure_endpoint hb e with
  | (ops, ConfigResult.ok) =>
    match transfer_type with
    | TransferType.Interrupt =>
      (match submitBurst subOk with
       | some pending => (ops, StartOutcome.looping pending)
       | none => (ops, StartOutcome.submitPanic))
    | TransferType.Bulk =>
      (match submitBurst subOk with
       | some pending => (ops, StartOutcome.looping pending)
       | none => (ops, StartOutcome.submitPanic))
    | _ => (ops, StartOutcome.unimplementedPanic)
  | (ops, _) => (ops, StartOutcome.configPanic)

/-! ## Generic list lemmas -/

/-- `findSome?` of a guarded value is `head?` of the filtered list. -/
theorem findSome?_guard_eq {α β : Type} (p : α → Prop) [DecidablePred p] (f : α → β)
    (l : List α) :
    (l.findSome? fun a => if p a then some (f a) else none)
      = ((l.filter fun a => decide (p a)).head?).map f := by
  induction l with
  | nil => rfl
  | cons a l ih =>
    by_cases h : p a
    · simp [List.findSome?_cons, List.filter_cons, h]
    · simp [List.findSome?_cons, List.filter_cons, h, ih]

/-- `head?` of a filtered flat map, as a nested first-hit search. -/
theorem head?_filter_flatMap {α β : Type} (g : α → List β) (p : β → Bool) (l : List α) :
    ((l.flatMap g).filter p).head? = l.findSome? fun a => ((g a).filter p).head? := by
  induction l with
  | nil => rfl
  | cons a l ih =>
    rw [List.flatMap_cons, List.filter_append, List.head?_append, ih, List.findSome?_cons]
    cases h : ((g a).filter p).head? <;> simp [h]

/-- `Option.map` pushes inside `findSome?`. -/
theorem map_findSome?_eq {α β γ : Type} (f : α → Option β) (h : β → γ) (l : List α) :
    (l.findSome? f).map h = l.findSome? fun a => (f a).map h := by
  induction l with
  | nil => rfl
  | cons a l ih => cases hfa : f a <;> simp [List.findSome?_cons, hfa, ih]

/-- Pointwise equal search functions search alike. -/
theorem findSome?_congr {α β : Type} {f g : α → Option β} (l : List α)
    (h : ∀ a, f a = g a) : l.findSome? f = l.findSome? g := by
  rw [funext h]

/-- Filtering away only elements the search maps to `none` changes nothing. -/
theorem findSome?_filter_guard {α β : Type} (p : α → Prop) [DecidablePred p]
    (f : α → Option β) (hf : ∀ a, ¬p a → f a = none) (l : List α) :
    ((l.filter fun a => decide (p a)).findSome? f) = l.findSome? f := by
  induction l with
  | nil => rfl
  | cons a l ih =>
    by_cases h : p a
    · simp [List.filter_cons, h, List.findSome?_cons, ih]
    · simp [List.filter_cons, h, List.findSome?_cons, hf a h, ih]

/-! ## Claim C1: the endpoint selector is the traversal-order first match -/

/-- The alternate-setting level of the correspondence. -/
theorem tuples_head_interfaceDesc (cfgNum : Nat) (transfer_type : TransferType)
    (idesc : InterfaceDesc) :
    ((((idesc.endpoint_descriptors.map fun ep =>
          (ep, ({ config := cfgNum, iface := idesc.interface_number,
                  setting := idesc.setting_number, address := ep.address } : Endpoint))).filter
        fun pr => decide (pr.1.direction = Direction.In ∧
          pr.1.transfer_type = transfer_type)).head?).map Prod.snd)
      = findInInterfaceDesc cfgNum idesc transfer_type := by
  rw [findInInterfaceDesc,
    findSome?_guard_eq
      (fun ep : EndpointDesc => ep.direction = Direction.In ∧ ep.transfer_type = transfer_type),
    List.filter_map, List.head?_map, Option.map_map]
  rfl

/-- The configuration level of the correspondence. -/
theorem tuples_head_config (transfer_type : TransferType) (c : ConfigDesc) :
    ((((c.interfaces.flatMap fun i =>
          i.descriptors.flatMap fun idesc =>
            idesc.endpoint_descriptors.map fun ep =>
              (ep, ({ config := c.number, iface := idesc.interface_number,
                      setting := idesc.setting_number, address := ep.address } : Endpoint))).filter
        fun pr => decide (pr.1.direction = Direction.In ∧
          pr.1.transfer_type = transfer_type)).head?).map Prod.snd)
      = findInConfig c transfer_type := by
  rw [head?_filter_flatMap, map_findSome?_eq, findInConfig]
  apply findSome?_congr
  intro i
  rw [head?_filter_flatMap, map_findSome?_eq, findInInterface]
  apply findSome?_congr
  intro idesc
  exact tuples_head_interfaceDesc c.number transfer_type idesc

/-- C1: for every descriptor tree and requested transfer type,
`find_readable_endpoint` returns exactly the first tuple of the
configuration-index → interface → alternate-setting → endpoint traversal
whose endpoint is inbound and of the requested type (as the
`{config, iface, setting, address}` record), unreadable configurations
skipped, and `none` when the exhaustive traversal has no such endpoint. -/
theorem find_readable_endpoint_eq_firstMatchSpec (device : Device)
    (device_desc : DeviceDescriptor) (transfer_type : TransferType) :
    find_readable_endpoint device device_desc transfer_type
      = firstMatchSpec device device_desc transfer_type := by
  rw [firstMatchSpec, endpointTuples, head?_filter_flatMap, map_findSome?_eq,
    find_readable_endpoint]
  apply findSome?_congr
  intro n
  cases h : device.config_descriptor n with
  | none => simp [h]
  | some c =>
    simp only [h]
    exact (tuples_head_config transfer_type c).symm

/-! ## Claim C4: searches of different transfer types are independent -/

/-- Restriction does not change the alternate-setting level search. -/
theorem findInInterfaceDesc_restrict (cfgNum : Nat) (transfer_type : TransferType)
    (idesc : InterfaceDesc) :
    findInInterfaceDesc cfgNum (InterfaceDesc.restrict transfer_type idesc) transfer_type
      = findInInterfaceDesc cfgNum idesc transfer_type := by
  show ((keepOnly transfer_type idesc.endpoint_descriptors).findSome? _) = _
  rw [keepOnly]
  exact findSome?_filter_guard
    (fun ep => ep.direction = Direction.In ∧ ep.transfer_type = transfer_type)
    _ (fun ep hep => if_neg hep) idesc.endpoint_descriptors

/-- Restriction does not change the interface level search. -/
theorem findInInterface_restrict (cfgNum : Nat) (transfer_type : TransferType)
    (i : Interface) :
    findInInterface cfgNum (Interface.restrict transfer_type i) transfer_type
      = findInInterface cfgNum i transfer_type := by
  show ((i.descriptors.map (InterfaceDesc.restrict transfer_type)).findSome? _) = _
  rw [List.findSome?_map]
  exact findSome?_congr i.descriptors
    (fun idesc => findInInterfaceDesc_restrict cfgNum transfer_type idesc)

/-- Restriction does not change the configuration level search. -/
theorem findInConfig_restrict (transfer_type : TransferType) (c : ConfigDesc) :
    findInConfig (ConfigDesc.restrict transfer_type c) transfer_type
      = findInConfig c transfer_type := by
  show ((c.interfaces.map (Interface.restrict transfer_type)).findSome? _) = _
  rw [List.findSome?_map]
  exact findSome?_congr c.interfaces
    (fun i => findInInterface_restrict c.number transfer_type i)

/-- Restricted devices read restricted configuration descriptors. -/
theorem config_descriptor_restrict (transfer_type : TransferType) (d : Device) (n : Nat) :
    (Device.restrict transfer_type d).config_descriptor n
      = (d.config_descriptor n).map (ConfigDesc.restrict transfer_type) := by
  show (((d.config_descriptors.map (Option.map (ConfigDesc.restrict transfer_type))).get? n).join) = _
  rw [List.get?_eq_getElem?, List.getElem?_map, Option.join_map_eq_map_join,
    Device.config_descriptor, List.get?_eq_getElem?]

/-- The search result of `find_readable_endpoint` only depends on the
endpoints its request can match. -/
theorem find_readable_endpoint_restrict (transfer_type : TransferType) (d : Device)
    (device_desc : DeviceDescriptor) :
    find_readable_endpoint (Device.restrict transfer_type d) device_desc transfer_type
      = find_readable_endpoint d device_desc transfer_type := by
  rw [find_readable_endpoint, find_readable_endpoint]
  apply findSome?_congr
  intro n
  rw [config_descriptor_restrict]
  cases h : d.config_descriptor n with
  | none => rfl
  | some c => exact findInConfig_restrict transfer_type c

/-- C4: the interrupt search and the bulk search are independent — the
result of `find_readable_endpoint` for a transfer type depends only on the
traversal structure and the inbound endpoints of that type, so adding or
removing inbound endpoints of the other type (which leaves the restriction
to the requested type unchanged) cannot change it. -/
theorem find_readable_endpoint_independent (d₁ d₂ : Device)
    (device_desc : DeviceDescriptor) (transfer_type : TransferType)
    (h : Device.restrict transfer_type d₁ = Device.restrict transfer_type d₂) :
    find_readable_endpoint d₁ device_desc transfer_type
      = find_readable_endpoint d₂ device_desc transfer_type := by
  rw [← find_readable_endpoint_restrict transfer_type d₁ device_desc, h,
    find_readable_endpoint_restrict]

/-- Witness for C4: a device with one inbound interrupt endpoint and one
inbound bulk endpoint, against the same device with the bulk endpoint
removed: the interrupt searches agree. -/
theorem find_readable_endpoint_independent_witness :
    find_readable_endpoint
        ⟨[some ⟨1, [⟨[⟨0, 0, [⟨Direction.In, TransferType.Bulk, 130⟩,
            ⟨Direction.In, TransferType.Interrupt, 129⟩]⟩]⟩]⟩]⟩
        ⟨4660, 22136, 1⟩ TransferType.Interrupt
      = find_readable_endpoint
        ⟨[some ⟨1, [⟨[⟨0, 0, [⟨Direction.In, TransferType.Interrupt, 129⟩]⟩]⟩]⟩]⟩
        ⟨4660, 22136, 1⟩ TransferType.Interrupt :=
  find_readable_endpoint_independent _ _ _ _ (by decide)

/-! ## Claim C3: the device locator -/

/-- The scan is the first device that matches and opens. -/
theorem open_scan_eq_find? (vid pid : Nat) (l : List SimDevice) :
    open_scan vid pid l
      = (l.find? (matchesAndOpens vid pid)).map
          fun dev => (dev, dev.device_descriptor.getD ⟨0, 0, 0⟩) := by
  induction l with
  | nil => rfl
  | cons dev rest ih =>
    cases hdd : dev.device_descriptor with
    | none => simp [open_scan, List.find?_cons, matchesAndOpens, hdd, ih]
    | some dd =>
      by_cases hmatch : dd.vendor_id = vid ∧ dd.product_id = pid
      · by_cases hopen : dev.open_ok
        · simp [open_scan, List.find?_cons, matchesAndOpens, hdd, hmatch, hopen]
        · simp [open_scan, List.find?_cons, matchesAndOpens, hdd, hmatch, hopen, ih]
      · simp [open_scan, List.find?_cons, matchesAndOpens, hdd, hmatch, ih]

/-- C3: `open_device` returns `none` both on an enumeration error and on a
matchless scan; a device whose descriptor read fails is skipped; the first
device (in enumeration order) whose descriptor matches `(vid, pid)` and
whose open succeeds is returned with its descriptor, an open failure on a
match being skipped like any other miss; and a `none` result makes `main`
print the not-found message and take no further device action. -/
theorem open_device_spec (vid pid : Nat) :
    open_device vid pid none = none ∧
    (∀ l : List SimDevice,
      open_device vid pid (some l)
        = (l.find? (matchesAndOpens vid pid)).map
            fun dev => (dev, dev.device_descriptor.getD ⟨0, 0, 0⟩)) ∧
    (∀ (args : List String) (w : World),
      3 ≤ args.length →
      parse_u16 (args.getD 1 "") = some vid →
      parse_u16 (args.getD 2 "") = some pid →
      w.ctx_ok = true →
      open_device vid pid w.devices = none →
      mainRun args w
        = ([MainEvent.contextInit, MainEvent.printNotFound vid pid], MainOutcome.exitOk)) := by
  refine ⟨rfl, fun l => open_scan_eq_find? vid pid l, ?_⟩
  intro args w hlen h1 h2 hctx hopen
  rw [mainRun, if_neg (by omega), h1, h2]
  simp [hctx, hopen]

/-- Witness for C3: a scan over an erroring-descriptor device, a matching
device that fails to open, a non-matching device, and a matching device
that opens, returns the last; and the not-found path of `main`. -/
theorem open_device_spec_witness :
    open_device 17 34 (some
        [⟨none, true⟩, ⟨some ⟨17, 34, 0⟩, false⟩, ⟨some ⟨17, 35, 0⟩, true⟩,
         ⟨some ⟨17, 34, 2⟩, true⟩])
      = some (⟨some ⟨17, 34, 2⟩, true⟩, ⟨17, 34, 2⟩) ∧
    mainRun ["async", "17", "34"] ⟨true, some []⟩
      = ([MainEvent.contextInit, MainEvent.printNotFound 17 34], MainOutcome.exitOk) := by
  constructor
  · rw [(open_device_spec 17 34).2.1]
    decide
  · exact (open_device_spec 17 34).2.2 ["async", "17", "34"] ⟨true, some []⟩
      (by decide) (by decide) (by decide) rfl rfl

/-! ## Claim C9: command-line argument handling -/

/-- C9: with fewer than two positional arguments (`args` includes the
program name) `main` prints only the usage line and returns normally,
touching no context or device; with two arguments, a failed 16-bit parse
of either one panics before any context or device access. -/
theorem mainRun_args_spec (args : List String) (w : World) :
    (args.length < 3 →
      mainRun args w = ([MainEvent.printUsage], MainOutcome.exitOk)) ∧
    (3 ≤ args.length →
      (parse_u16 (args.getD 1 "") = none ∨ parse_u16 (args.getD 2 "") = none) →
      mainRun args w = ([], MainOutcome.panicked)) := by
  constructor
  · intro h
    rw [mainRun, if_pos h]
  · intro hlen hp
    rw [mainRun, if_neg (by omega)]
    cases h1 : parse_u16 (args.getD 1 "") with
    | none => rfl
    | some vid =>
      cases h2 : parse_u16 (args.getD 2 "") with
      | none => rfl
      | some pid =>
        rw [h1, h2] at hp
        rcases hp with hp | hp <;> cases hp

/-- Witness for C9: one positional argument gives only the usage line; a
non-numeric vendor id panics with no context event. -/
theorem mainRun_args_spec_witness :
    mainRun ["async", "4660"] ⟨true, some []⟩
      = ([MainEvent.printUsage], MainOutcome.exitOk) ∧
    mainRun ["async", "zz", "22136"] ⟨true, some []⟩
      = ([], MainOutcome.panicked) := by
  constructor
  · exact (mainRun_args_spec ["async", "4660"] ⟨true, some []⟩).1 (by decide)
  · exact (mainRun_args_spec ["async", "zz", "22136"] ⟨true, some []⟩).2
      (by decide) (Or.inl (by decide))

/-! ## Claim C5: control flow of `read_device` -/

/-- C5: `read_device` falls through to `Ok(())` exactly when both searches
miss; the bulk branch is reached only when the interrupt search returns
`none`; and a found interrupt endpoint sends control into `read_endpoint`,
whose loop has no exit, so nothing after it runs. -/
theorem read_device_flow (device : Device) (device_desc : DeviceDescriptor) :
    (read_device device device_desc = ReadDeviceOutcome.done ↔
      find_readable_endpoint device device_desc TransferType.Interrupt = none ∧
      find_readable_endpoint device device_desc TransferType.Bulk = none) ∧
    (∀ e, read_device device device_desc
        = ReadDeviceOutcome.entersLoop TransferType.Bulk e →
      find_readable_endpoint device device_desc TransferType.Interrupt = none) ∧
    (∀ e, find_readable_endpoint device device_desc TransferType.Interrupt = some e →
      read_device device device_desc
        = ReadDeviceOutcome.entersLoop TransferType.Interrupt e) := by
  cases h1 : find_readable_endpoint device device_desc TransferType.Interrupt with
  | some e => simp [read_device, h1]
  | none =>
    cases h2 : find_readable_endpoint device device_desc TransferType.Bulk with
    | some e => simp [read_device, h1, h2]
    | none => simp [read_device, h1, h2]

/-- Witness for C5: a device with only an inbound interrupt endpoint makes
`read_device` enter the interrupt transfer loop. -/
theorem read_device_flow_witness :
    read_device ⟨[some ⟨1, [⟨[⟨0, 0, [⟨Direction.In, TransferType.Interrupt, 129⟩]⟩]⟩]⟩]⟩
        ⟨4660, 22136, 1⟩
      = ReadDeviceOutcome.entersLoop TransferType.Interrupt ⟨1, 0, 0, 129⟩ :=
  (read_device_flow ⟨[some ⟨1, [⟨[⟨0, 0, [⟨Direction.In, TransferType.Interrupt, 129⟩]⟩]⟩]⟩]⟩
      ⟨4660, 22136, 1⟩).2.2 ⟨1, 0, 0, 129⟩ (by decide)

/-! ## Claim C7: the endpoint configurator -/

/-- C7: `configure_endpoint` invokes exactly enable-auto-detach, claim the
endpoint's interface, set its alternate setting, in that order; it never
invokes `set_active_configuration`; a claim or alternate-setting failure
surfaces as an `Err` to the caller after a single attempt; and no other
handle operation ever appears. -/
theorem configure_endpoint_spec (hb : HandleBehavior) (e : Endpoint) :
    (hb.auto_detach_ok = false →
      configure_endpoint hb e
        = ([HandleOp.setAutoDetachKernelDriver true], ConfigResult.panicked)) ∧
    (hb.auto_detach_ok = true → hb.claim_ok = false →
      configure_endpoint hb e
        = ([HandleOp.setAutoDetachKernelDriver true, HandleOp.claimInterface e.iface],
            ConfigResult.err)) ∧
    (hb.auto_detach_ok = true → hb.claim_ok = true → hb.set_alt_ok = false →
      configure_endpoint hb e
        = ([HandleOp.setAutoDetachKernelDriver true, HandleOp.claimInterface e.iface,
            HandleOp.setAlternateSetting e.iface e.setting], ConfigResult.err)) ∧
    (hb.auto_detach_ok = true → hb.claim_ok = true → hb.set_alt_ok = true →
      configure_endpoint hb e
        = ([HandleOp.setAutoDetachKernelDriver true, HandleOp.claimInterface e.iface,
            HandleOp.setAlternateSetting e.iface e.setting], ConfigResult.ok)) ∧
    (∀ c, HandleOp.setActiveConfiguration c ∉ (configure_endpoint hb e).1) := by
  obtain ⟨ad, cl, sa⟩ := hb
  cases ad <;> cases cl <;> cases sa <;> simp [configure_endpoint]

/-- Witness for C7: with all three operations succeeding, exactly the
three operations run in order and the result is `Ok(())`. -/
theorem configure_endpoint_spec_witness :
    configure_endpoint ⟨true, true, true⟩ ⟨1, 2, 3, 129⟩
      = ([HandleOp.setAutoDetachKernelDriver true, HandleOp.claimInterface 2,
          HandleOp.setAlternateSetting 2 3], ConfigResult.ok) :=
  (configure_endpoint_spec ⟨true, true, true⟩ ⟨1, 2, 3, 129⟩).2.2.2.1 rfl rfl rfl

/-! ## Claim C10: unsupported transfer types -/

/-- C10: for a transfer type other than `Interrupt` and `Bulk`,
`read_endpoint` hits the `unimplemented!()` panic (never an error report),
and it does so exactly when `configure_endpoint` succeeded — that is, only
after auto-detach was enabled, the interface claimed and the alternate
setting selected. -/
theorem read_endpoint_unimplemented (hb : HandleBehavior) (e : Endpoint)
    (subOk : Fin 8 → Bool) (transfer_type : TransferType)
    (h1 : transfer_type ≠ TransferType.Interrupt)
    (h2 : transfer_type ≠ TransferType.Bulk) :
    ((read_endpoint_start hb e transfer_type subOk).2 = StartOutcome.unimplementedPanic ↔
      (configure_endpoint hb e).2 = ConfigResult.ok) ∧
    ((read_endpoint_start hb e transfer_type subOk).2 = StartOutcome.unimplementedPanic →
      (read_endpoint_start hb e transfer_type subOk).1
        = [HandleOp.setAutoDetachKernelDriver true, HandleOp.claimInterface e.iface,
            HandleOp.setAlternateSetting e.iface e.setting]) := by
  obtain ⟨ad, cl, sa⟩ := hb
  cases ad <;> cases cl <;> cases sa <;> cases transfer_type <;>
    simp_all [read_endpoint_start, configure_endpoint]

/-- Witness for C10: a control transfer type on a fully configured
endpoint reaches the `unimplemented!()` abort with the three configuration
operations already performed. -/
theorem read_endpoint_unimplemented_witness :
    (read_endpoint_start ⟨true, true, true⟩ ⟨1, 2, 3, 129⟩ TransferType.Control
        (fun _ => true)).2 = StartOutcome.unimplementedPanic ∧
    (read_endpoint_start ⟨true, true, true⟩ ⟨1, 2, 3, 129⟩ TransferType.Control
        (fun _ => true)).1
      = [HandleOp.setAutoDetachKernelDriver true, HandleOp.claimInterface 2,
          HandleOp.setAlternateSetting 2 3] := by
  have h := read_endpoint_unimplemented ⟨true, true, true⟩ ⟨1, 2, 3, 129⟩
    (fun _ => true) TransferType.Control (by decide) (by decide)
  exact ⟨h.1.mpr rfl, h.2 (h.1.mpr rfl)⟩

/-! ## The transfer loop: claims C2, C6, C8 -/

/-- A completion index returned by `wait_any` addresses a pending slot. -/
theorem lt_length_of_get?_eq_some {α : Type} {l : List α} {n : Nat} {a : α}
    (h : l[n]? = some a) : n < l.length := by
  by_contra hn
  rw [List.getElem?_eq_none_iff.2 (Nat.le_of_not_lt hn)] at h
  cases h

/-- One successful iteration: remove the completed slot, print, resubmit
the same slot at the back. -/
theorem loopIter_complete_eq (s : List (Fin 8)) (k : Nat) (slot : Fin 8)
    (status : TransferStatus) (actual : Nat) (hget : s[k]? = some slot) :
    loopIter s (LoopEvent.complete k status actual true)
      = some (status, actual, s.eraseIdx k ++ [slot]) := by
  simp only [loopIter, hget]
  rfl

/-- A successful iteration preserves the number of pending transfers. -/
theorem loopIter_length (s : List (Fin 8)) (ev : LoopEvent)
    (status : TransferStatus) (actual : Nat) (s' : List (Fin 8))
    (h : loopIter s ev = some (status, actual, s')) : s'.length = s.length := by
  cases ev with
  | waitErr => simp [loopIter] at h
  | complete k st a sub =>
    cases hget : s[k]? with
    | none => simp [loopIter, hget] at h
    | some slot =>
      have hk : k < s.length := lt_length_of_get?_eq_some hget
      cases sub with
      | false => simp [loopIter, hget] at h
      | true =>
        simp only [loopIter, hget, if_true] at h
        obtain ⟨-, -, h3⟩ : st = status ∧ a = actual ∧ s.eraseIdx k ++ [slot] = s' := by
          simpa using h
        rw [← h3, List.length_append, List.length_eraseIdx_of_lt hk]
        simp only [List.length_cons, List.length_nil]
        omega

/-- A run that has not panicked has as many pending transfers as it
started with. -/
theorem runLoop_length (evs : List LoopEvent) :
    ∀ s s' : List (Fin 8), runLoop s evs = some s' → s'.length = s.length := by
  induction evs with
  | nil =>
    intro s s' h
    simp only [runLoop] at h
    cases h
    rfl
  | cons ev evs ih =>
    intro s s' h
    simp only [runLoop] at h
    cases hit : loopIter s ev with
    | none => rw [hit] at h; cases h
    | some out =>
      obtain ⟨status, actual, s₁⟩ := out
      rw [hit] at h
      rw [ih s₁ s' h, loopIter_length s ev status actual s₁ hit]

/-- C2: the initial burst of all eight buffers leaves eight transfers
pending; each successful iteration takes the one completed transfer out
and resubmits that same transfer exactly once; and any non-panicked run
from the burst state still has exactly eight transfers pending. -/
theorem transfer_loop_invariant :
    submitBurst (fun _ => true) = some (List.finRange 8) ∧
    (List.finRange 8 : List (Fin 8)).length = 8 ∧
    (∀ (s : List (Fin 8)) (k : Nat) (slot : Fin 8) (status : TransferStatus)
        (actual : Nat),
      s[k]? = some slot →
      loopIter s (LoopEvent.complete k status actual true)
          = some (status, actual, s.eraseIdx k ++ [slot]) ∧
        (s.eraseIdx k ++ [slot]).length = s.length) ∧
    (∀ (evs : List LoopEvent) (s : List (Fin 8)),
      runLoop (List.finRange 8) evs = some s → s.length = 8) := by
  refine ⟨by decide, by decide, ?_, ?_⟩
  · intro s k slot status actual hget
    refine ⟨loopIter_complete_eq s k slot status actual hget, ?_⟩
    exact loopIter_length s (LoopEvent.complete k status actual true) status actual _
      (loopIter_complete_eq s k slot status actual hget)
  · intro evs s h
    rw [runLoop_length evs (List.finRange 8) s h]
    decide

/-- Witness for C2: after a concrete completion-and-resubmit run from the
burst state, eight transfers are pending. -/
theorem transfer_loop_invariant_witness :
    ([(1 : Fin 8), 2, 3, 4, 5, 6, 7, 0] : List (Fin 8)).length = 8 :=
  transfer_loop_invariant.2.2.2
    [LoopEvent.complete 0 TransferStatus.Timeout 0 true]
    [1, 2, 3, 4, 5, 6, 7, 0] (by decide)

/-- C6: the loop body treats every completion status alike — for any two
statuses of the same completed transfer (timeout and success included) it
prints the status with the actual byte count and unconditionally resubmits
that same transfer, producing identical next pending states; no branch
depends on the status beyond the printed value. -/
theorem loop_iteration_status_blind (s : List (Fin 8)) (k : Nat) (slot : Fin 8)
    (status status' : TransferStatus) (actual : Nat) (hget : s[k]? = some slot) :
    loopIter s (LoopEvent.complete k status actual true)
        = some (status, actual, s.eraseIdx k ++ [slot]) ∧
    loopIter s (LoopEvent.complete k status' actual true)
        = some (status', actual, s.eraseIdx k ++ [slot]) :=
  ⟨loopIter_complete_eq s k slot status actual hget,
   loopIter_complete_eq s k slot status' actual hget⟩

/-- Witness for C6: a timed-out completion and a successful completion of
the same transfer lead to the same resubmitted state. -/
theorem loop_iteration_status_blind_witness :
    loopIter (List.finRange 8) (LoopEvent.complete 0 TransferStatus.Timeout 64 true)
        = some (TransferStatus.Timeout, 64,
            (List.finRange 8).eraseIdx 0 ++ [(0 : Fin 8)]) ∧
    loopIter (List.finRange 8) (LoopEvent.complete 0 TransferStatus.Success 64 true)
        = some (TransferStatus.Success, 64,
            (List.finRange 8).eraseIdx 0 ++ [(0 : Fin 8)]) :=
  loop_iteration_status_blind (List.finRange 8) 0 0 TransferStatus.Timeout
    TransferStatus.Success 64 (by decide)

/-- A submit failure anywhere in the burst is a panic. -/
theorem submitAll_none (ok : Fin 8 → Bool) :
    ∀ (l : List (Fin 8)) (pending : List (Fin 8)),
      (∃ i ∈ l, ok i = false) → submitAll ok l pending = none := by
  intro l
  induction l with
  | nil =>
    rintro pending ⟨i, hi, -⟩
    cases hi
  | cons j rest ih =>
    rintro pending ⟨i, hi, hfalse⟩
    by_cases hj : ok j = true
    · rw [submitAll, if_pos hj]
      refine ih (pending ++ [j]) ⟨i, ?_, hfalse⟩
      rcases List.mem_cons.1 hi with rfl | h
      · rw [hj] at hfalse
        cases hfalse
      · exact h
    · rw [submitAll, if_neg hj]

/-- Running a longer event sequence factors through the shorter one. -/
theorem runLoop_append (evs evs' : List LoopEvent) :
    ∀ s : List (Fin 8),
      runLoop s (evs ++ evs')
        = match runLoop s evs with
          | none => none
          | some s₁ => runLoop s₁ evs' := by
  induction evs with
  | nil => intro s; rfl
  | cons ev evs ih =>
    intro s
    simp only [List.cons_append, runLoop]
    cases loopIter s ev with
    | none => rfl
    | some out =>
      obtain ⟨st, a, s₁⟩ := out
      exact ih s₁

/-- Under panic-free driver responses, the loop is still running after any
number of iterations. -/
theorem runLoop_good (evs : List LoopEvent) :
    ∀ s : List (Fin 8), s.length = 8 → (∀ ev ∈ evs, goodEvent ev = true) →
      ∃ s', runLoop s evs = some s' ∧ s'.length = 8 := by
  induction evs with
  | nil =>
    intro s hs _
    exact ⟨s, rfl, hs⟩
  | cons ev evs ih =>
    intro s hs hgood
    have hev := hgood ev (List.mem_cons_self ev evs)
    cases ev with
    | waitErr => simp [goodEvent] at hev
    | complete k st a sub =>
      simp only [goodEvent, Bool.and_eq_true, decide_eq_true_eq] at hev
      obtain ⟨hk, rfl⟩ := hev
      obtain ⟨slot, hget⟩ : ∃ slot, s[k]? = some slot := by
        cases hq : s[k]? with
        | none =>
          rw [List.getElem?_eq_none_iff] at hq
          omega
        | some slot => exact ⟨slot, rfl⟩
      have hiter := loopIter_complete_eq s k slot st a hget
      have hlen : (s.eraseIdx k ++ [slot]).length = s.length :=
        loopIter_length s (LoopEvent.complete k st a true) st a _ hiter
      obtain ⟨s', hrun, hs'⟩ := ih (s.eraseIdx k ++ [slot]) (by omega)
        (fun e he => hgood e (List.mem_cons_of_mem _ he))
      refine ⟨s', ?_, hs'⟩
      simp only [runLoop, hiter]
      exact hrun

/-- C8: a failed `wait_any`, a failed resubmission, or a failed burst
submit is a panic (`none`), after which no recovery ever happens; and the
loop has no terminal state — under panic-free driver responses it is still
running after every finite number of iterations, with no iteration cap. -/
theorem transfer_loop_fatal_or_forever :
    (∀ s : List (Fin 8), loopIter s LoopEvent.waitErr = none) ∧
    (∀ (s : List (Fin 8)) (k : Nat) (status : TransferStatus) (actual : Nat),
      loopIter s (LoopEvent.complete k status actual false) = none) ∧
    (∀ ok : Fin 8 → Bool, (∃ i, ok i = false) → submitBurst ok = none) ∧
    (∀ (s : List (Fin 8)) (evs evs' : List LoopEvent),
      runLoop s evs = none → runLoop s (evs ++ evs') = none) ∧
    (∀ evs : List LoopEvent, (∀ ev ∈ evs, goodEvent ev = true) →
      ∃ s', runLoop (List.finRange 8) evs = some s') := by
  refine ⟨fun s => rfl, ?_, ?_, ?_, ?_⟩
  · intro s k status actual
    cases hq : s[k]? <;> simp [loopIter, hq]
  · rintro ok ⟨i, hi⟩
    exact submitAll_none ok (List.finRange 8) [] ⟨i, by simp, hi⟩
  · intro s evs evs' h
    rw [runLoop_append, h]
  · intro evs hgood
    obtain ⟨s', h, -⟩ := runLoop_good evs (List.finRange 8) (by decide) hgood
    exact ⟨s', h⟩

/-- Witness for C8: a concrete panic-free response sequence leaves the
loop running. -/
theorem transfer_loop_fatal_or_forever_witness :
    ∃ s', runLoop (List.finRange 8)
        [LoopEvent.complete 0 TransferStatus.Success 64 true,
         LoopEvent.complete 0 TransferStatus.Timeout 0 true]
      = some s' :=
  transfer_loop_fatal_or_forever.2.2.2.2
    [LoopEvent.complete 0 TransferStatus.Success 64 true,
     LoopEvent.complete 0 TransferStatus.Timeout 0 true] (by decide)

end Async
